import Mathlib

/-!
Shallow embedding of the scan-request pipeline of `src/api/src/functions/scanRepo.js`
(the Docker/timeout-free, mock-backed implementation that is the authoritative `/scan`
endpoint of this repository), together with theorems settling the spec claims.

JavaScript string primitives (`split('/')`, `replace(pat, '')` on its first
occurrence, `toLowerCase()`, `includes(pat)`, `substring(0, n)`) are embedded as
structurally recursive functions over `List Char` so that every definition is
executable and kernel-reducible.
-/

namespace SecretSniffer

/-! ## JavaScript string primitives -/

/-- Embedding of JavaScript `s.split(sep)` for a one-character separator:
splits a character list at every occurrence of `sep`, keeping empty pieces
(`"a//b".split('/') = ["a","","b"]`, `"".split('/') = [""]`). -/
def splitOnChar (sep : Char) : List Char → List (List Char)
  | [] => [[]]
  | c :: rest =>
    let r := splitOnChar sep rest
    if c = sep then [] :: r
    else match r with
      | [] => [[c]]
      | h :: t => (c :: h) :: t

/-- JavaScript `s.split('/')` as a list of strings. -/
def jsSplitSlash (s : String) : List String :=
  (splitOnChar '/' s.data).map String.mk

/-- Embedding of JavaScript `s.replace(pat, '')` with a string pattern:
removes the FIRST occurrence of `pat` (and only that one), leaving `s`
unchanged when `pat` does not occur. -/
def listReplaceFirst (pat : List Char) : List Char → List Char
  | [] => []
  | c :: rest =>
    if pat.isPrefixOf (c :: rest) then (c :: rest).drop pat.length
    else c :: listReplaceFirst pat rest

/-- JavaScript `s.replace(pat, '')` on strings. -/
def jsRemoveFirst (s pat : String) : String :=
  String.mk (listReplaceFirst pat.data s.data)

/-- Embedding of JavaScript `s.toLowerCase()` (ASCII case folding, which is all
the severity patterns exercise). -/
def jsToLower (s : String) : String := String.mk (s.data.map Char.toLower)

/-- Embedding of JavaScript `s.includes(pat)`: substring containment. -/
def jsIncludes (s pat : String) : Bool := decide (pat.data <:+: s.data)

/-- Embedding of JavaScript `s.substring(0, n)`. -/
def jsSubstringTo (s : String) (n : Nat) : String := String.mk (s.data.take n)

/-- JavaScript falsiness of an optional string (`!repoUrl`): `undefined`/`null`
(here `none`) and the empty string are falsy. -/
def jsFalsy : Option String → Bool
  | none => true
  | some s => s.isEmpty

/-! ## Data model -/

/-- One raw Gitleaks finding, as produced on the scanner's standard output
(the JSON objects built in `runGitleaksScan`). The fractional entropy score is
carried as a rational number; it is only ever copied, never computed with. -/
structure RawFinding where
  description : String
  startLine : Nat
  endLine : Nat
  startColumn : Nat
  endColumn : Nat
  matchText : String
  secret : String
  file : String
  symlinkFile : String
  commit : String
  entropy : Rat
  author : String
  email : String
  date : String
  message : String
  tags : List String
  ruleId : String
deriving DecidableEq, Repr

/-- One finding of the public schema, as built by `formatScanResults`. -/
structure NormalizedFinding where
  id : Nat
  file : String
  commit : String
  secretType : String
  severity : String
  lineNumber : Nat
  snippet : String
  entropy : Rat
  author : String
  date : String
deriving DecidableEq, Repr

/-- The public report returned with a `200` response. -/
structure ScanReport where
  repoName : String
  totalSecrets : Nat
  scanDate : String
  findings : List NormalizedFinding
  scanEngine : String
  version : String
deriving DecidableEq, Repr

/-- Structured content of a JSON response body: empty (the OPTIONS preflight),
a scan report (`200`), or an error object `{ error, message, details? }`
(`400`/`500`; `details` is omitted from the JSON when `undefined`, hence the
`Option`). -/
inductive Body where
  | empty : Body
  | report : ScanReport → Body
  | err : String → String → Option String → Body
deriving DecidableEq, Repr

/-- An HTTP response as returned by the handler. -/
structure HttpResponse where
  status : Nat
  headers : List (String × String)
  body : Body
deriving DecidableEq, Repr

/-- HTTP method of an incoming request (the handler is registered for GET and
POST and special-cases OPTIONS preflight). -/
inductive Method where
  | get : Method
  | post : Method
  | options : Method
deriving DecidableEq, Repr

/-- An incoming `/scan` request: the method, the `repoUrl` field of the parsed
POST body, and the `repoUrl` query parameter (either may be absent). -/
structure ScanRequest where
  method : Method
  bodyRepoUrl : Option String
  queryRepoUrl : Option String
deriving DecidableEq, Repr

/-- The handler reads `body.repoUrl` for POST and `request.query.get('repoUrl')`
otherwise. -/
def effectiveRepoUrl (req : ScanRequest) : Option String :=
  match req.method with
  | .post => req.bodyRepoUrl
  | _ => req.queryRepoUrl

/-- Outcomes of the effectful steps surrounding the pipeline, fixed per request:
the temp-directory allocation (`tmp.dir`), the `simple-git` clone, whether
`fs.rm` fails during cleanup, `process.env.NODE_ENV`, and the wall-clock
timestamps observed by the scan step and the formatting step. -/
structure Env where
  tmpDir : Except String String
  cloneResult : Except String Unit
  rmFails : Bool
  nodeEnv : String
  scanNow : String
  formatNow : String
deriving Repr

/-- Observable outcome of one handler run: the HTTP response plus the
workspace-lifecycle trace (whether a temp directory was created, how many times
`cleanupTempDirectory` ran, and whether it logged a cleanup failure). -/
structure Outcome where
  response : HttpResponse
  workspaceCreated : Bool
  cleanupRuns : Nat
  cleanupFailureLogged : Bool
deriving DecidableEq, Repr

/-! ## Functions of `scanRepo.js` -/

/-- The CORS header block attached to every response of the handler. -/
def corsHeaders : List (String × String) :=
  [("Access-Control-Allow-Origin", "*"),
   ("Access-Control-Allow-Methods", "GET, POST, OPTIONS"),
   ("Access-Control-Allow-Headers", "Content-Type, Authorization"),
   ("Content-Type", "application/json")]

/-- A response of the handler: every response site of `scanRepo.js` attaches
the same `corsHeaders` block. -/
def mkResponse (status : Nat) (b : Body) : HttpResponse :=
  { status := status, headers := corsHeaders, body := b }

/-- The `typeMap` table of `mapSecretType`. -/
def typeMap : List (String × String) :=
  [("generic-api-key", "API Key"),
   ("aws-access-token", "AWS Access Key"),
   ("github-pat", "GitHub Token"),
   ("slack-bot-token", "Slack Bot Token"),
   ("discord-bot-token", "Discord Bot Token"),
   ("database-password", "Database Password"),
   ("private-key", "Private Key"),
   ("jwt", "JWT Token")]

/-- `mapSecretType(description, ruleId)`: `typeMap[ruleId] || description ||
'Unknown Secret'` (a missing table entry falls back to the description, an
empty/missing description to the literal). -/
def mapSecretType (description ruleId : String) : String :=
  match typeMap.lookup ruleId with
  | some t => t
  | none => if description.isEmpty then "Unknown Secret" else description

/-- The `highSeverityPatterns` list of `determineSeverity`. -/
def highSeverityPatterns : List String :=
  ["private-key", "aws-access-token", "database-password"]

/-- The `mediumSeverityPatterns` list of `determineSeverity`. -/
def mediumSeverityPatterns : List String :=
  ["api-key", "github-pat", "jwt"]

/-- `determineSeverity(description, ruleId)`: lowercases
`description + ' ' + ruleId` and classifies by substring containment of the
pattern lists. -/
def determineSeverity (description ruleId : String) : String :=
  if highSeverityPatterns.any (fun p => jsIncludes (jsToLower (description ++ " " ++ ruleId)) p)
    then "high"
  else if mediumSeverityPatterns.any (fun p => jsIncludes (jsToLower (description ++ " " ++ ruleId)) p)
    then "medium"
  else "low"

/-- The repo-name computation of `formatScanResults`:
`repoUrl.split('/').pop().replace('.git', '')`. `pop()` takes the last
slash-separated segment, empty or not; `replace` removes the first occurrence
of `".git"` anywhere in that segment. -/
def extractRepoName (repoUrl : String) : String :=
  jsRemoveFirst ((jsSplitSlash repoUrl).getLastD "") ".git"

/-- The per-finding mapping of `formatScanResults` (`findings.map`), carrying
the zero-based position `index`. -/
def formatFinding (index : Nat) (f : RawFinding) : NormalizedFinding :=
  { id := index + 1
    file := f.file
    commit := jsSubstringTo f.commit 7
    secretType := mapSecretType f.description f.ruleId
    severity := determineSeverity f.description f.ruleId
    lineNumber := f.startLine
    snippet := f.matchText
    entropy := f.entropy
    author := f.author
    date := f.date }

/-- `formatScanResults(scanOutput, repoUrl)`: builds the public report from the
parsed finding list. The `JSON.parse`/`JSON.stringify` round trip between
`runGitleaksScan` and this function is the identity on the finding list, so the
input is taken already parsed; `now` is the `new Date().toISOString()` value
used for `scanDate`. -/
def formatScanResults (findings : List RawFinding) (repoUrl : String)
    (now : String) : ScanReport :=
  let formattedFindings := findings.mapIdx formatFinding
  { repoName := extractRepoName repoUrl
    totalSecrets := formattedFindings.length
    scanDate := now
    findings := formattedFindings
    scanEngine := "Gitleaks"
    version := "8.18.0" }

/-- Error taxonomy of the spec for the scan step (`ScanTimeoutError`, and
`ScanError{code, stderr}`). The implementation in `scanRepo.js` never
constructs either value: its scan step is a mock that always resolves. -/
inductive ScanFailure where
  | timeout : ScanFailure
  | exitError : Nat → String → ScanFailure
deriving DecidableEq, Repr

/-- The message the handler would report for a rejected scan promise. -/
def scanFailureMessage : ScanFailure → String
  | .timeout => "Gitleaks scan timed out"
  | .exitError code stderr =>
      "Gitleaks scan failed with code " ++ toString code ++ ": " ++ stderr

/-- The hardcoded `mockResults` array of `runGitleaksScan`, with the two
`new Date().toISOString()` fields abstracted as `now`. -/
def mockResults (now : String) : List RawFinding :=
  [{ description := "Generic API Key"
     startLine := 15, endLine := 15, startColumn := 15, endColumn := 45
     matchText := "api_key = \"sk-1234567890abcdef1234567890abcdef\""
     secret := "sk-1234567890abcdef1234567890abcdef"
     file := "config/settings.py"
     symlinkFile := ""
     commit := "a1b2c3d4e5f6789012345678901234567890abcd"
     entropy := mkRat 9 2
     author := "developer@example.com"
     email := "developer@example.com"
     date := now
     message := "Add API configuration"
     tags := []
     ruleId := "generic-api-key" },
   { description := "AWS Access Key"
     startLine := 23, endLine := 23, startColumn := 20, endColumn := 40
     matchText := "AWS_ACCESS_KEY_ID = \"AKIA1234567890ABCDEF\""
     secret := "AKIA1234567890ABCDEF"
     file := ".env"
     symlinkFile := ""
     commit := "b2c3d4e5f6789012345678901234567890abcdef"
     entropy := mkRat 19 5
     author := "developer@example.com"
     email := "developer@example.com"
     date := now
     message := "Add AWS credentials"
     tags := []
     ruleId := "aws-access-token" }]

/-- `runGitleaksScan(repoPath)`: spawns no subprocess, consults no exit code
and sets no timer; after a fixed simulated delay it unconditionally resolves
with the mock finding list (the active code; the exit-code/subprocess variant
is commented out in the source). Typed against the spec's failure taxonomy to
make "never fails" a statement, not a typing accident. -/
def runGitleaksScan (repoPath : String) (now : String) :
    Except ScanFailure (List RawFinding) :=
  Except.ok (mockResults now)

/-- The `500` response built by the handler's outer `catch`:
`details` carries the thrown error's message exactly when
`process.env.NODE_ENV === 'development'`. -/
def response500 (env : Env) (errMsg : String) : HttpResponse :=
  mkResponse 500 (Body.err "Internal server error"
    "Failed to scan repository. Please try again later."
    (if env.nodeEnv = "development" then some errMsg else none))

/-- A `400` validation response of the handler (`{ error, message }`, no
`details` key); no workspace was created when it is returned. -/
def badRequestOutcome (error message : String) : Outcome :=
  { response := mkResponse 400 (Body.err error message none),
    workspaceCreated := false, cleanupRuns := 0, cleanupFailureLogged := false }

/-- The `/scan` handler of `scanRepo.js`: OPTIONS preflight, `repoUrl`
extraction, the two validation checks, temp-directory creation, then
`try { clone; scan; format; return 200 } finally { cleanup }` inside the outer
`catch` that produces the `500`. `cleanupTempDirectory` swallows its own
failure (`rmFails` is logged, never rethrown), so it contributes to the trace
but never to the response. -/
def handler (req : ScanRequest) (env : Env) : Outcome :=
  if req.method = Method.options then
    { response := mkResponse 200 Body.empty,
      workspaceCreated := false, cleanupRuns := 0, cleanupFailureLogged := false }
  else
    if jsFalsy (effectiveRepoUrl req) then
      badRequestOutcome "Repository URL is required" "Please provide a valid GitHub repository URL"
    else
      if jsIncludes ((effectiveRepoUrl req).getD "") "github.com" = false then
        badRequestOutcome "Invalid repository URL" "Please provide a valid GitHub repository URL"
      else
        match env.tmpDir with
        | Except.error e =>
          { response := response500 env e,
            workspaceCreated := false, cleanupRuns := 0, cleanupFailureLogged := false }
        | Except.ok tmpPath =>
          match env.cloneResult with
          | Except.error e =>
            { response := response500 env ("Failed to clone repository: " ++ e),
              workspaceCreated := true, cleanupRuns := 1, cleanupFailureLogged := env.rmFails }
          | Except.ok _ =>
            match runGitleaksScan tmpPath env.scanNow with
            | Except.error sf =>
              { response := response500 env (scanFailureMessage sf),
                workspaceCreated := true, cleanupRuns := 1, cleanupFailureLogged := env.rmFails }
            | Except.ok findings =>
              { response := mkResponse 200 (Body.report
                  (formatScanResults findings ((effectiveRepoUrl req).getD "") env.formatNow)),
                workspaceCreated := true, cleanupRuns := 1, cleanupFailureLogged := env.rmFails }

/-! ## Spec-side comparison definitions -/

/-- Modelled from the spec: `repoName` is "the last non-empty path segment of
`repoUrl` with a trailing `.git` suffix stripped; if extraction fails, falls
back to a literal `"unknown"`". Stated here only to be compared with the
source's `extractRepoName`. -/
def specRepoName (repoUrl : String) : String :=
  match ((jsSplitSlash repoUrl).filter (fun s => s.isEmpty = false)).getLast? with
  | none => "unknown"
  | some seg =>
    if ".git".data.isSuffixOf seg.data then String.mk (seg.data.take (seg.data.length - 4))
    else seg

/-- The portion of a character list after the first occurrence of `pat`
(`none` when `pat` does not occur). -/
def dropThroughFirst (pat : List Char) : List Char → Option (List Char)
  | [] => if pat = [] then some [] else none
  | c :: rest =>
    if pat.isPrefixOf (c :: rest) then some ((c :: rest).drop pat.length)
    else dropThroughFirst pat rest

/-- Modelled from the spec: the host component of a URL ("any URL whose host
does not match the expected forge domain"), i.e. the authority segment between
the scheme separator and the next slash. Stated here only to be compared with
the source's substring check. -/
def specUrlHost (u : String) : String :=
  match dropThroughFirst "://".data u.data with
  | none => ""
  | some rest => String.mk (rest.takeWhile (fun c => !(c = '/')))

/-- Modelled from the spec: the engine exit-code contract the scan step is
claimed to honor — "code 0 → no findings (empty result); code 1 → findings
present, parse subprocess standard output as the finding list; any other code →
`ScanError{code, stderr}`". The active source never consults an exit code; this
definition exists only to be compared with `runGitleaksScan`. -/
def gitleaksExitContract (code : Nat) (stdout : List RawFinding) (stderr : String) :
    Except ScanFailure (List RawFinding) :=
  if code = 0 then Except.ok []
  else if code = 1 then Except.ok stdout
  else Except.error (ScanFailure.exitError code stderr)

/-! ## Concrete fixtures shared by witnesses and counterexamples -/

/-- A POST request carrying the given `repoUrl` in its JSON body. -/
def postReq (u : String) : ScanRequest :=
  { method := Method.post, bodyRepoUrl := some u, queryRepoUrl := none }

/-- A production environment where every effectful step succeeds. -/
def envProdOk : Env :=
  { tmpDir := Except.ok "/tmp/ws", cloneResult := Except.ok (), rmFails := false,
    nodeEnv := "production", scanNow := "2024-01-01T00:00:00.000Z",
    formatNow := "2024-01-01T00:00:02.000Z" }

/-- A production environment whose clone step fails. -/
def envProdCloneFail : Env :=
  { tmpDir := Except.ok "/tmp/ws", cloneResult := Except.error "remote: Repository not found.",
    rmFails := false, nodeEnv := "production", scanNow := "2024-01-01T00:00:00.000Z",
    formatNow := "2024-01-01T00:00:02.000Z" }

/-! ## Helper lemmas -/

/-- The embedded JavaScript `includes` decides substring (infix) containment. -/
theorem jsIncludes_eq_true_iff (s pat : String) :
    jsIncludes s pat = true ↔ pat.data <:+: s.data := by
  simp [jsIncludes]

/-- A pattern list's `any jsIncludes` check decides existence of a contained
pattern. -/
theorem any_jsIncludes_iff (l : List String) (s : String) :
    (l.any fun p => jsIncludes s p) = true ↔ ∃ p ∈ l, p.data <:+: s.data := by
  simp [List.any_eq_true, jsIncludes]

/-! ## Claim theorems -/

/-- C8. The result normalizer is a deterministic, side-effect-free function of
its inputs: for every raw finding list and `repoUrl`, two runs of
`formatScanResults` on the same inputs produce identical `ScanReport`s except
for the `scanDate` timestamp field. -/
theorem formatScanResults_deterministic_mod_timestamp
    (findings : List RawFinding) (repoUrl : String) (t1 t2 : String) :
    formatScanResults findings repoUrl t1 =
      { formatScanResults findings repoUrl t2 with scanDate := t1 } := rfl

/-- C10. Every response produced by the `/scan` handler — the OPTIONS
preflight, the 200 success, the 400 validation errors, and the 500 failures —
carries exactly the `corsHeaders` block, which includes
`Access-Control-Allow-Origin: *`. -/
theorem handler_responses_carry_cors (req : ScanRequest) (env : Env) :
    (handler req env).response.headers = corsHeaders
  ∧ ("Access-Control-Allow-Origin", "*") ∈ corsHeaders := by
  constructor
  · unfold handler badRequestOutcome response500 mkResponse
    repeat' split
    all_goals rfl
  · decide

/-- C4. Workspace cleanup runs exactly once on every exit path of a request
that created a workspace and zero times otherwise; a cleanup (`fs.rm`) failure
is logged (the `cleanupFailureLogged` trace bit) but never propagated — the
response is identical whatever the cleanup outcome. -/
theorem cleanup_exactly_once_never_propagated (req : ScanRequest) (env : Env) :
    ((handler req env).workspaceCreated = true ↔ (handler req env).cleanupRuns = 1)
  ∧ ((handler req env).workspaceCreated = false ↔ (handler req env).cleanupRuns = 0)
  ∧ (handler req env).cleanupFailureLogged = ((handler req env).workspaceCreated && env.rmFails)
  ∧ ∀ b, (handler req { env with rmFails := b }).response = (handler req env).response := by
  obtain ⟨tmp, clone, rm, ne, sn, fn⟩ := env
  refine ⟨?_, ?_, ?_, ?_⟩ <;>
  · try intro b
    unfold handler badRequestOutcome response500 mkResponse runGitleaksScan
    repeat' split
    all_goals simp_all

/-- C9. For every pipeline failure, the `500` response body is
`{ error, message, details? }` with the fixed error and generic message, and
`details` (the internal error message) is included exactly when the service
runs with `NODE_ENV = "development"`; otherwise it is suppressed. -/
theorem failure_detail_gated_by_development (req : ScanRequest) (env : Env)
    (h : (handler req env).response.status = 500) :
    ∃ m, (handler req env).response.body =
      Body.err "Internal server error" "Failed to scan repository. Please try again later."
        (if env.nodeEnv = "development" then some m else none) := by
  revert h
  unfold handler badRequestOutcome response500 mkResponse runGitleaksScan
  repeat' split
  all_goals intro h
  all_goals first
    | exact ⟨_, rfl⟩
    | exact ⟨"", rfl⟩
    | simp at h

/-- C9 witness: a concrete production-mode clone failure yields a `500` whose
body suppresses the internal detail. -/
theorem failure_detail_gated_by_development_witness :
    ∃ m, (handler (postReq "https://github.com/acme/app") envProdCloneFail).response.body =
      Body.err "Internal server error" "Failed to scan repository. Please try again later."
        (if envProdCloneFail.nodeEnv = "development" then some m else none) :=
  failure_detail_gated_by_development (postReq "https://github.com/acme/app")
    envProdCloneFail (by decide)

/-- C5 counterexample: the URL `https://evil.com/github.com` has host
`evil.com`, not the forge domain, so by the claim validation must reject it
with a `400` before any workspace is created; the handler instead accepts it
(the check is substring containment anywhere in the URL), creates a workspace
and proceeds to a `200`. -/
theorem validation_not_host_based_cex :
    specUrlHost "https://evil.com/github.com" = "evil.com"
  ∧ specUrlHost "https://evil.com/github.com" ≠ "github.com"
  ∧ (handler (postReq "https://evil.com/github.com") envProdOk).response.status = 200
  ∧ (handler (postReq "https://evil.com/github.com") envProdOk).workspaceCreated = true := by
  decide

/-- C5 amended: validation rejects an empty or missing `repoUrl` and any URL
that does not contain the substring `github.com` anywhere (not a host
comparison), with a `400` carrying an error and message and no `details`, and
such a rejection happens before any workspace is created. A `400` arises in no
other case. -/
theorem validation_substring_gate (req : ScanRequest) (env : Env)
    (hm : req.method ≠ Method.options) :
    ((handler req env).response.status = 400 ↔
      (jsFalsy (effectiveRepoUrl req) = true ∨
        jsIncludes ((effectiveRepoUrl req).getD "") "github.com" = false))
  ∧ ((handler req env).response.status = 400 →
      (handler req env).workspaceCreated = false ∧ (handler req env).cleanupRuns = 0
      ∧ ∃ e m, (handler req env).response.body = Body.err e m none) := by
  unfold handler badRequestOutcome response500 mkResponse runGitleaksScan
  rw [if_neg hm]
  repeat' split
  all_goals simp_all

/-- C5 amended, witness: a missing `repoUrl` on a POST request is rejected
with a `400` and no workspace is created. -/
theorem validation_substring_gate_witness :
    (handler { method := Method.post, bodyRepoUrl := none, queryRepoUrl := none } envProdOk).workspaceCreated = false := by
  have h := validation_substring_gate
    { method := Method.post, bodyRepoUrl := none, queryRepoUrl := none } envProdOk (by decide)
  exact (h.2 (h.1.mpr (Or.inl (by decide)))).1

/-- C3. For every request whose URL passes validation and whose workspace and
clone steps succeed, the scan step resolves the fixed mock finding list, so the
response is a `200` reporting exactly that list; moreover every report body the
handler can ever produce has `totalSecrets = 2` and exactly the two fixed
findings (the `Generic API Key` in `config/settings.py`, normalized to
secret type `API Key`, and the `AWS Access Key` in `.env`), independent of the
repository's contents. -/
theorem mock_scan_fixed_findings (req : ScanRequest) (env : Env) (dir : String)
    (hm : req.method ≠ Method.options)
    (hf : jsFalsy (effectiveRepoUrl req) = false)
    (hg : jsIncludes ((effectiveRepoUrl req).getD "") "github.com" = true)
    (ht : env.tmpDir = Except.ok dir)
    (hc : env.cloneResult = Except.ok ()) :
    (handler req env).response.status = 200
  ∧ (handler req env).response.body = Body.report
      (formatScanResults (mockResults env.scanNow) ((effectiveRepoUrl req).getD "") env.formatNow)
  ∧ ∀ (req2 : ScanRequest) (env2 : Env) (rep : ScanReport),
      (handler req2 env2).response.body = Body.report rep →
      rep.totalSecrets = 2
      ∧ rep.findings.map (fun f => (f.file, f.secretType, f.severity)) =
          [("config/settings.py", "API Key", "medium"), (".env", "AWS Access Key", "high")] := by
  refine ⟨?_, ?_, ?_⟩
  · unfold handler badRequestOutcome response500 mkResponse runGitleaksScan
    rw [if_neg hm]
    simp [hf, hg, ht, hc]
  · unfold handler badRequestOutcome response500 mkResponse runGitleaksScan
    rw [if_neg hm]
    simp [hf, hg, ht, hc]
  · intro req2 env2 rep h
    revert h
    unfold handler badRequestOutcome response500 mkResponse runGitleaksScan
    dsimp only
    repeat' split
    all_goals intro h
    all_goals cases h
    exact ⟨rfl, rfl⟩

/-- C3 witness: a concrete valid request with successful clone yields a `200`
whose report body is the formatted mock finding list. -/
theorem mock_scan_fixed_findings_witness :
    (handler (postReq "https://github.com/acme/app") envProdOk).response.status = 200 :=
  (mock_scan_fixed_findings (postReq "https://github.com/acme/app") envProdOk "/tmp/ws"
    (by decide) (by decide) (by decide) rfl rfl).1

/-- C6 counterexample: over the plain (unseparated) concatenation of
description and rule id, as the claim states it, the high pattern
`private-key` is contained in `"private-ke" ++ "y"`, so the claim requires
severity `high`; the code joins the two fields with a space and yields `low`
for this input. -/
theorem severity_concatenation_cex :
    determineSeverity "private-ke" "y" = "low"
  ∧ "private-key" ∈ highSeverityPatterns
  ∧ "private-key".data <:+: (jsToLower ("private-ke" ++ "y")).data := by
  decide

/-- C6 amended: severity is `high` when the lowercased, SPACE-separated
concatenation of description and rule id contains one of the high patterns,
else `medium` when it contains one of the medium patterns, else `low`; in
particular rule `aws-access-token` yields `high` and `generic-api-key` yields
`medium`. -/
theorem severity_classification (d r : String) :
    (determineSeverity d r = "high" ↔
      ∃ p ∈ highSeverityPatterns, p.data <:+: (jsToLower (d ++ " " ++ r)).data)
  ∧ (determineSeverity d r = "medium" ↔
      ((¬∃ p ∈ highSeverityPatterns, p.data <:+: (jsToLower (d ++ " " ++ r)).data)
        ∧ ∃ p ∈ mediumSeverityPatterns, p.data <:+: (jsToLower (d ++ " " ++ r)).data))
  ∧ (determineSeverity d r = "low" ↔
      ((¬∃ p ∈ highSeverityPatterns, p.data <:+: (jsToLower (d ++ " " ++ r)).data)
        ∧ ¬∃ p ∈ mediumSeverityPatterns, p.data <:+: (jsToLower (d ++ " " ++ r)).data))
  ∧ determineSeverity "AWS Access Key" "aws-access-token" = "high"
  ∧ determineSeverity "Generic API Key" "generic-api-key" = "medium" := by
  have hH := any_jsIncludes_iff highSeverityPatterns (jsToLower (d ++ " " ++ r))
  have hM := any_jsIncludes_iff mediumSeverityPatterns (jsToLower (d ++ " " ++ r))
  refine ⟨?_, ?_, ?_, by decide, by decide⟩ <;>
  · unfold determineSeverity
    rcases hhb : (highSeverityPatterns.any fun p => jsIncludes (jsToLower (d ++ " " ++ r)) p) with _ | _ <;>
      rcases hmb : (mediumSeverityPatterns.any fun p => jsIncludes (jsToLower (d ++ " " ++ r)) p) with _ | _ <;>
      simp only [hhb] at hH <;> simp only [hmb] at hM <;>
      simp_all

/-- C7 counterexample: three explicit URLs where the code's repo-name
computation disagrees with the claimed one (`specRepoName`, the spec's "last
non-empty segment, trailing `.git` stripped, else `unknown`"): `.git` is
removed anywhere in the segment, a trailing slash yields the empty segment,
and no `unknown` fallback exists. -/
theorem repoName_extraction_cex :
    extractRepoName "https://github.com/acme/my.gitlab-app" = "mylab-app"
  ∧ specRepoName "https://github.com/acme/my.gitlab-app" = "my.gitlab-app"
  ∧ extractRepoName "https://github.com/acme/" = ""
  ∧ specRepoName "https://github.com/acme/" = "acme"
  ∧ extractRepoName "///" = ""
  ∧ specRepoName "///" = "unknown" := by decide

/-- C7 amended: the report's `repoName` is the last (possibly empty)
slash-separated segment of the URL with the FIRST occurrence of `.git`
removed, and there is no fallback: `...acme/app.git` and `...acme/app` both
yield `app`, but a trailing slash yields `""`, a URL with no slash yields
itself, and `.git` is removed even mid-name. -/
theorem repoName_extraction_actual :
    (∀ (fs : List RawFinding) (u t : String),
      (formatScanResults fs u t).repoName = extractRepoName u)
  ∧ extractRepoName "https://github.com/acme/app.git" = "app"
  ∧ extractRepoName "https://github.com/acme/app" = "app"
  ∧ extractRepoName "https://github.com/acme/my.gitlab-app" = "mylab-app"
  ∧ extractRepoName "https://github.com/acme/" = ""
  ∧ extractRepoName "not-a-url" = "not-a-url"
  ∧ extractRepoName "a.git.git" = "a.git" :=
  ⟨fun _ _ _ => rfl, by decide, by decide, by decide, by decide, by decide, by decide⟩

/-- C1 counterexample: a concrete scan invocation resolves with the mock
finding list and is not a `ScanTimeoutError`; the scan function has no time
budget input at all and its result does not depend on the scanned path, so no
invocation can ever be terminated on expiry of a wall-clock timeout. -/
theorem scan_timeout_cex :
    runGitleaksScan "/tmp/ws" "2024-01-01T00:00:00.000Z" ≠ Except.error ScanFailure.timeout
  ∧ runGitleaksScan "/tmp/ws" "2024-01-01T00:00:00.000Z" =
      Except.ok (mockResults "2024-01-01T00:00:00.000Z")
  ∧ runGitleaksScan "/tmp/ws" "2024-01-01T00:00:00.000Z" =
      runGitleaksScan "/other/path" "2024-01-01T00:00:00.000Z" :=
  ⟨fun h => Except.noConfusion h, rfl, rfl⟩

/-- C1 amended: the scan invocation is governed by no timeout: every
invocation resolves with the mock finding list and never fails with
`ScanTimeoutError`, so after passed validation, workspace creation and a
successful clone the request yields `200` (a timeout `500` is impossible) and
workspace cleanup still runs exactly once afterward. -/
theorem scan_untimed_always_resolves (p t : String) (req : ScanRequest) (env : Env)
    (dir : String)
    (hm : req.method ≠ Method.options)
    (hf : jsFalsy (effectiveRepoUrl req) = false)
    (hg : jsIncludes ((effectiveRepoUrl req).getD "") "github.com" = true)
    (ht : env.tmpDir = Except.ok dir)
    (hc : env.cloneResult = Except.ok ()) :
    runGitleaksScan p t = Except.ok (mockResults t)
  ∧ (handler req env).response.status = 200
  ∧ (handler req env).cleanupRuns = 1 := by
  refine ⟨rfl, ?_, ?_⟩ <;>
  · unfold handler badRequestOutcome response500 mkResponse runGitleaksScan
    rw [if_neg hm]
    simp [hf, hg, ht, hc]

/-- C1 amended, witness: on a concrete valid request the pipeline returns
`200` and cleanup runs exactly once. -/
theorem scan_untimed_always_resolves_witness :
    (handler (postReq "https://github.com/acme/app") envProdOk).cleanupRuns = 1 :=
  (scan_untimed_always_resolves "/tmp/ws" "2024-01-01T00:00:00.000Z"
    (postReq "https://github.com/acme/app") envProdOk "/tmp/ws"
    (by decide) (by decide) (by decide) rfl rfl).2.2

/-- C2 counterexample: the scan step's result is the same non-empty mock list
for two different repository paths and differs from what the exit-code
contract prescribes for exit code 0 (an empty list); the active code consults
no exit code at all (the subprocess variant is commented out in the source). -/
theorem exit_code_contract_cex :
    runGitleaksScan "/repo-a" "T" = runGitleaksScan "/repo-b" "T"
  ∧ runGitleaksScan "/repo-a" "T" = Except.ok (mockResults "T")
  ∧ mockResults "T" ≠ []
  ∧ runGitleaksScan "/repo-a" "T" ≠ gitleaksExitContract 0 (mockResults "T") "" := by
  refine ⟨rfl, rfl, by decide, fun h => ?_⟩
  simp [runGitleaksScan, gitleaksExitContract, mockResults] at h

/-- C2 amended: the scan step ignores the engine exit-code contract: it
spawns no subprocess and unconditionally resolves with the fixed two-element
mock finding list (rules `generic-api-key` and `aws-access-token`) for every
invocation. -/
theorem scan_ignores_exit_codes (p t : String) :
    runGitleaksScan p t = Except.ok (mockResults t)
  ∧ (mockResults t).length = 2
  ∧ ((mockResults t).map fun f => f.ruleId) = ["generic-api-key", "aws-access-token"] :=
  ⟨rfl, rfl, rfl⟩

end SecretSniffer
